import Mathlib

/-!
Shallow embedding of `src/backends/apple/native/stub.cpp`, the fallback
N-API binding module for non-macOS platforms, together with proofs of the
behavioural properties stated in the specification.

The C++ file defines five native functions (`Transcribe`, `IsAvailable`,
`SupportsOnDevice`, `GetSupportedLocales`, `RequestAuthorization`) and an
`Init` function that registers them on the module's exports object.  The
embedding models JavaScript values, a pending JavaScript exception, the
promise/deferred mechanism, and the exports object explicitly.
-/

namespace AppleSpeechStub

/- JavaScript values as observable through the N-API surface used by the
stub, together with promise state (`Napi::Promise::Deferred` promises are
values whose settlement state is observable). -/
mutual

inductive JsValue : Type where
  | undefined : JsValue
  | boolean : Bool → JsValue
  | string : String → JsValue
  | array : List JsValue → JsValue
  | error : String → JsValue
  | promise : PromiseState → JsValue

inductive PromiseState : Type where
  | pending : PromiseState
  | resolved : JsValue → PromiseState
  | rejected : JsValue → PromiseState
end

/-- The arguments handed to a native function through
`Napi::CallbackInfo`: an ordered list of JavaScript values. -/
def CallbackInfo : Type := List JsValue

/-- Outcome of one native call, as observed by the host runtime: the value
the C++ function returns, plus the pending JavaScript exception (set by
`ThrowAsJavaScriptException`), if any. -/
structure FnOutcome : Type where
  returnValue : JsValue
  pendingException : Option JsValue

/-- `Napi::Error::New(env, msg)` as a JavaScript value (`.Value()`). -/
def NapiErrorNew (msg : String) : JsValue :=
  JsValue.error msg

/-- `Napi::Promise::Deferred`: a handle whose promise starts pending and
can be settled once. -/
structure Deferred : Type where
  state : PromiseState

/-- `Napi::Promise::Deferred::New(env)`: a fresh deferred, still pending. -/
def Deferred.New : Deferred :=
  ⟨PromiseState.pending⟩

/-- `deferred.Reject(value)`: settles the deferred to the rejected state
carrying `value`. -/
def Deferred.Reject (_d : Deferred) (v : JsValue) : Deferred :=
  ⟨PromiseState.rejected v⟩

/-- `deferred.Promise()`: the promise value carried by the deferred. -/
def Deferred.Promise (d : Deferred) : JsValue :=
  JsValue.promise d.state

/-- The fixed message used by every error the stub constructs. -/
def stubMessage : String := "Apple Speech is only available on macOS"

/-- `Transcribe` from `stub.cpp`: throws an `Napi::Error` with the fixed
message as a JavaScript exception and returns `env.Undefined()`. -/
def Transcribe (_info : CallbackInfo) : FnOutcome :=
  { returnValue := JsValue.undefined
    pendingException := some (NapiErrorNew stubMessage) }

/-- `IsAvailable` from `stub.cpp`: returns `Napi::Boolean::New(env, false)`. -/
def IsAvailable (_info : CallbackInfo) : FnOutcome :=
  { returnValue := JsValue.boolean false
    pendingException := none }

/-- `SupportsOnDevice` from `stub.cpp`: returns
`Napi::Boolean::New(env, false)`. -/
def SupportsOnDevice (_info : CallbackInfo) : FnOutcome :=
  { returnValue := JsValue.boolean false
    pendingException := none }

/-- `GetSupportedLocales` from `stub.cpp`: returns
`Napi::Array::New(env, 0)`, the empty array. -/
def GetSupportedLocales (_info : CallbackInfo) : FnOutcome :=
  { returnValue := JsValue.array []
    pendingException := none }

/-- `RequestAuthorization` from `stub.cpp`: creates a deferred, rejects it
with the fixed error, and returns its promise. No exception is thrown. -/
def RequestAuthorization (_info : CallbackInfo) : FnOutcome :=
  let deferred := Deferred.New
  let deferred := deferred.Reject (NapiErrorNew stubMessage)
  { returnValue := deferred.Promise
    pendingException := none }

/-- The five operations of the module, one constructor per native
function registered by `Init`. -/
inductive Op : Type where
  | transcribe : Op
  | isAvailable : Op
  | supportsOnDevice : Op
  | getSupportedLocales : Op
  | requestAuthorization : Op
deriving DecidableEq, Repr

/-- Dispatch an operation to the native function implementing it. -/
def Op.run : Op → CallbackInfo → FnOutcome
  | Op.transcribe, info => Transcribe info
  | Op.isAvailable, info => IsAvailable info
  | Op.supportsOnDevice, info => SupportsOnDevice info
  | Op.getSupportedLocales, info => GetSupportedLocales info
  | Op.requestAuthorization, info => RequestAuthorization info

/-- The stub module's mutable state.  The C++ translation unit declares no
global or static variable, so the state carries no information. -/
def ModuleState : Type := Unit

/-- One call as the host runtime performs it: the native function runs
with the module state in scope and hands back the (unchanged, since no
function touches any state) module state together with its outcome.  This
is the state-passing reading of the C++ functions, which take only
`info` and reference no non-local mutable data. -/
def stepCall (s : ModuleState) (op : Op) (info : CallbackInfo) :
    FnOutcome × ModuleState :=
  (Op.run op info, s)

/-- Run a sequence of calls from a module state, collecting the outcomes
in order. -/
def runTrace (s : ModuleState) : List (Op × CallbackInfo) → List FnOutcome
  | [] => []
  | (op, info) :: rest =>
      let (out, s2) := stepCall s op info
      out :: runTrace s2 rest

/-- The failures observable from one call outcome: the pending exception,
if any, plus the rejection value when the returned value is a promise
settled to the rejected state. -/
def FnOutcome.failures (o : FnOutcome) : List JsValue :=
  (match o.pendingException with
   | some e => [e]
   | none => []) ++
  (match o.returnValue with
   | JsValue.promise (PromiseState.rejected e) => [e]
   | _ => [])

/-- `exports.Set(name, fn)` on the N-API exports object: overwrites the
binding for `name` when present, otherwise appends it. -/
def ObjectSet (obj : List (String × (CallbackInfo → FnOutcome)))
    (name : String) (fn : CallbackInfo → FnOutcome) :
    List (String × (CallbackInfo → FnOutcome)) :=
  match obj with
  | [] => [(name, fn)]
  | (k, v) :: rest =>
      if k = name then (name, fn) :: rest
      else (k, v) :: ObjectSet rest name fn

/-- `Init` from `stub.cpp`: registers the five native functions on the
exports object under their JavaScript names and returns it. -/
def Init (exports : List (String × (CallbackInfo → FnOutcome))) :
    List (String × (CallbackInfo → FnOutcome)) :=
  let exports := ObjectSet exports "transcribe" Transcribe
  let exports := ObjectSet exports "isAvailable" IsAvailable
  let exports := ObjectSet exports "supportsOnDevice" SupportsOnDevice
  let exports := ObjectSet exports "getSupportedLocales" GetSupportedLocales
  let exports := ObjectSet exports "requestAuthorization" RequestAuthorization
  exports

/-- The exports object as the host runtime sees it after module load:
`Init` applied to the fresh (empty) exports object N-API hands in. -/
def moduleExports : List (String × (CallbackInfo → FnOutcome)) :=
  Init []

/-- Running a concatenated trace yields the concatenated outcome lists:
no call leaves anything behind that a later call could observe. -/
theorem runTrace_append (s : ModuleState) (l1 l2 : List (Op × CallbackInfo)) :
    runTrace s (l1 ++ l2) = runTrace s l1 ++ runTrace s l2 := by
  induction l1 with
  | nil => rfl
  | cons c rest ih =>
      cases c with
      | mk op info => simpa [runTrace, stepCall] using ih

/-- Claim C1: for every input, a call to `Transcribe` fails by raising an
error whose message is exactly "Apple Speech is only available on macOS",
and the outcome is a constant of the input, so no input validation or
audio processing influences the failure. -/
theorem transcribe_fails_with_exact_message (info : CallbackInfo) :
    (Transcribe info).pendingException
        = some (JsValue.error "Apple Speech is only available on macOS")
    ∧ ∀ other : CallbackInfo, Transcribe info = Transcribe other :=
  ⟨rfl, fun _ => rfl⟩

/-- Claim C2: every call to `RequestAuthorization` returns a promise that
is already settled to the rejected state carrying an error with the exact
fixed message, with no pending exception and no background work: the
settled state is part of the returned value itself. -/
theorem requestAuthorization_returns_rejected_promise (info : CallbackInfo) :
    (RequestAuthorization info).returnValue
        = JsValue.promise (PromiseState.rejected
            (JsValue.error "Apple Speech is only available on macOS"))
    ∧ (RequestAuthorization info).pendingException = none :=
  ⟨rfl, rfl⟩

/-- Claim C3: every failure any of the five operations produces is the
single error kind with the fixed message: each outcome's failure list is
either empty or exactly the fixed error; `Transcribe` raises it
synchronously as a pending exception and `RequestAuthorization` surfaces
it via the rejected promise it returns. -/
theorem failures_are_single_backend_unavailable_kind
    (op : Op) (info : CallbackInfo) :
    ((Op.run op info).failures = []
      ∨ (Op.run op info).failures
          = [JsValue.error "Apple Speech is only available on macOS"])
    ∧ (Transcribe info).pendingException
        = some (JsValue.error "Apple Speech is only available on macOS")
    ∧ (RequestAuthorization info).returnValue
        = JsValue.promise (PromiseState.rejected
            (JsValue.error "Apple Speech is only available on macOS"))
    ∧ (RequestAuthorization info).pendingException = none := by
  refine ⟨?_, rfl, rfl, rfl⟩
  cases op with
  | transcribe => exact Or.inr rfl
  | isAvailable => exact Or.inl rfl
  | supportsOnDevice => exact Or.inl rfl
  | getSupportedLocales => exact Or.inl rfl
  | requestAuthorization => exact Or.inr rfl

/-- Claim C4: every call to `IsAvailable` returns the boolean `false`,
raises no exception, and leaves the module state unchanged, so its result
is independent of call count and ordering. -/
theorem isAvailable_always_false (info : CallbackInfo) (s : ModuleState) :
    (IsAvailable info).returnValue = JsValue.boolean false
    ∧ (IsAvailable info).pendingException = none
    ∧ stepCall s Op.isAvailable info = (IsAvailable info, s) :=
  ⟨rfl, rfl, rfl⟩

/-- Claim C5: every call to `SupportsOnDevice` returns the boolean
`false` and raises no exception. -/
theorem supportsOnDevice_always_false (info : CallbackInfo) :
    (SupportsOnDevice info).returnValue = JsValue.boolean false
    ∧ (SupportsOnDevice info).pendingException = none :=
  ⟨rfl, rfl⟩

/-- Claim C6: every call to `GetSupportedLocales` returns the empty
ordered sequence of locale identifiers (an array of length 0) and raises
no exception. -/
theorem getSupportedLocales_empty (info : CallbackInfo) :
    (GetSupportedLocales info).returnValue = JsValue.array []
    ∧ (GetSupportedLocales info).pendingException = none :=
  ⟨rfl, rfl⟩

/-- Claim C7: no operation mutates any state, so the outcome of any call
is independent of all earlier calls (appending a call to any history
yields the history-free outcome), and invoking any operation twice in
sequence yields identical results both times. -/
theorem operations_are_stateless_and_idempotent
    (s : ModuleState) (history : List (Op × CallbackInfo))
    (op : Op) (info : CallbackInfo) :
    runTrace s (history ++ [(op, info)])
        = runTrace s history ++ [Op.run op info]
    ∧ runTrace s [(op, info), (op, info)]
        = [Op.run op info, Op.run op info]
    ∧ (stepCall s op info).2 = s := by
  refine ⟨?_, rfl, rfl⟩
  rw [runTrace_append]
  rfl

/-- Claim C8: `Init` registers exactly five entry points on the fresh
exports object, named `transcribe`, `isAvailable`, `supportsOnDevice`,
`getSupportedLocales` and `requestAuthorization`, bound to the
corresponding native functions, and no others. -/
theorem init_registers_exactly_five_entry_points :
    moduleExports
      = [("transcribe", Transcribe),
         ("isAvailable", IsAvailable),
         ("supportsOnDevice", SupportsOnDevice),
         ("getSupportedLocales", GetSupportedLocales),
         ("requestAuthorization", RequestAuthorization)] :=
  rfl

/-- Claim C9: the outcome of `Transcribe` is independent of its argument:
any two calls produce the same observable result, so no information from
the audio/options input influences the response. -/
theorem transcribe_independent_of_input (a b : CallbackInfo) :
    Transcribe a = Transcribe b :=
  rfl

/-- Claim C10: after raising its exception, `Transcribe` returns the
undefined value to the host runtime: every call both leaves a pending
exception and yields `undefined` as its nominal return value. -/
theorem transcribe_throws_and_returns_undefined (info : CallbackInfo) :
    (Transcribe info).pendingException
        = some (JsValue.error "Apple Speech is only available on macOS")
    ∧ (Transcribe info).returnValue = JsValue.undefined :=
  ⟨rfl, rfl⟩

end AppleSpeechStub
